import Mathlib

/-!
Shallow embedding of `src/bot.py` (kino_bot): a Telegram bot that delivers
videos ("kino") by numeric id, forwards user messages to the admins, and
lets admins upload videos through a guided conversation.

Python string primitives are modelled on `List Char`:
`pyStrip` models `str.strip()`, `pyIsDigit` models `str.isdigit()` (ASCII
digits), `strToNat` models `int(s)` on digit-only strings, `splitNone2`
models `s.split(None, 2)`, and `strStartsWith` models `s.startswith(pre)`.

Database tables are modelled as association lists:
the `admins` table as `List (Nat × Nat)` rows `(admin_id, added_by)`
(`admin_id` is the primary key), the `kino` table as
`List (Nat × KinoRow)` keyed by the primary key `id`, and the `messages`
table as `List (Nat × String)` rows `(user_id, text)` (the auto-increment
id and the default timestamp carry no information for the properties
proved here and are omitted).
-/

namespace KinoBot

/-- `str.strip()`: drop whitespace from both ends of the string. -/
def pyStrip (s : String) : String :=
  String.mk (((s.toList.dropWhile Char.isWhitespace).reverse.dropWhile
      Char.isWhitespace).reverse)

/-- `str.isdigit()`: nonempty and every character a decimal digit. -/
def pyIsDigit (s : String) : Bool :=
  !s.toList.isEmpty && s.toList.all Char.isDigit

/-- `int(s)` for a digit-only string. -/
def strToNat (s : String) : Nat :=
  s.toList.foldl (fun n c => n * 10 + (c.toNat - 48)) 0

/-- `s.startswith(pre)`. -/
def strStartsWith (s pre : String) : Bool :=
  s.toList.take pre.toList.length == pre.toList

/-- `s.split(None, 2)`: split on runs of whitespace, at most two splits;
the remainder after the second token is kept verbatim apart from its
leading whitespace. -/
def splitNone2 (s : String) : List String :=
  let l1 := s.toList.dropWhile Char.isWhitespace
  if l1.isEmpty then [] else
    let t1 := l1.takeWhile (fun c => !c.isWhitespace)
    let r1 := l1.dropWhile (fun c => !c.isWhitespace)
    let l2 := r1.dropWhile Char.isWhitespace
    if l2.isEmpty then [String.mk t1] else
      let t2 := l2.takeWhile (fun c => !c.isWhitespace)
      let r2 := l2.dropWhile (fun c => !c.isWhitespace)
      let l3 := r2.dropWhile Char.isWhitespace
      if l3.isEmpty then [String.mk t1, String.mk t2]
      else [String.mk t1, String.mk t2, String.mk l3]

/-- `get_admin_ids()`: the env-configured `ADMIN_IDS` merged with the ids
of the dynamic `admins` table (`list(set(ADMIN_IDS + db_admins))`),
followed by the code's fallback `all_admins if all_admins else ADMIN_IDS`. -/
def get_admin_ids (statics db : List Nat) : List Nat :=
  let all := (statics ++ db).dedup
  if all.isEmpty then statics else all

/-- `is_admin(user_id)`: membership in `get_admin_ids()`. -/
def is_admin (statics db : List Nat) (u : Nat) : Bool :=
  (get_admin_ids statics db).contains u

/-- Replies issued by `add_admin_command` / `remove_admin_command`. -/
inductive AdminCmdReply
  | permissionDenied
  | formatError
  | alreadyAdmin
  | added (id : Nat)
  | removed (id : Nat)
  | notAdmin
deriving DecidableEq

/-- `/addadmin` handler (`add_admin_command`): permission check, argument
format check, then `INSERT INTO admins` — the `sqlite3.IntegrityError`
branch fires exactly when `admin_id` (the primary key) is already a row
of the dynamic table. Returns the reply and the updated `admins` table. -/
def add_admin_command (statics : List Nat) (table : List (Nat × Nat))
    (requester : Nat) (args : List String) :
    AdminCmdReply × List (Nat × Nat) :=
  if !(is_admin statics (table.map Prod.fst) requester) then
    (.permissionDenied, table)
  else
    match args with
    | [] => (.formatError, table)
    | a :: _ =>
      if !(pyIsDigit a) then (.formatError, table)
      else
        let newId := strToNat a
        if (table.map Prod.fst).contains newId then (.alreadyAdmin, table)
        else (.added newId, table ++ [(newId, requester)])

/-- `/removeadmin` handler (`remove_admin_command`): permission check,
format check, then `DELETE FROM admins WHERE admin_id = ?`; the reply is
`removed` when `cursor.rowcount > 0`, i.e. when the table shrank. -/
def remove_admin_command (statics : List Nat) (table : List (Nat × Nat))
    (requester : Nat) (args : List String) :
    AdminCmdReply × List (Nat × Nat) :=
  if !(is_admin statics (table.map Prod.fst) requester) then
    (.permissionDenied, table)
  else
    match args with
    | [] => (.formatError, table)
    | a :: _ =>
      if !(pyIsDigit a) then (.formatError, table)
      else
        let aid := strToNat a
        let table2 := table.filter (fun row => row.1 != aid)
        if table2.length < table.length then (.removed aid, table2)
        else (.notAdmin, table2)

/-- One row of the `kino` table (besides the primary key `id`). -/
structure KinoRow where
  file_id : String
  title : String
  descr : String
deriving DecidableEq

/-- `INSERT OR REPLACE INTO kino` (from `get_description`): the row with
primary key `id`, if any, is replaced by the new row. -/
def upsertKino (t : List (Nat × KinoRow)) (id : Nat) (row : KinoRow) :
    List (Nat × KinoRow) :=
  t.filter (fun r => r.1 != id) ++ [(id, row)]

/-- `SELECT file_id, title, description FROM kino WHERE id = ?` with
`fetchone()` (from `message_handler`). -/
def lookupKino (t : List (Nat × KinoRow)) (id : Nat) : Option KinoRow :=
  (t.find? (fun r => r.1 == id)).map Prod.snd

/-- Number of rows of the `kino` table with key `id`. -/
def countId (t : List (Nat × KinoRow)) (id : Nat) : Nat :=
  (t.filter (fun r => r.1 == id)).length

/-- Per-user state of the upload `ConversationHandler`. The draft that
`bot.py` keeps in `context.user_data` (`file_id`, `kino_id`, `title`) is
carried in the state constructors: exactly the keys that are set in each
state along every reachable run. -/
inductive DialogueState
  | idle
  | awaitingNumber (file_id : String)
  | awaitingTitle (file_id : String) (kino_id : Nat)
  | awaitingDescription (file_id : String) (kino_id : Nat) (title : String)
deriving DecidableEq

/-- An inbound update relevant to the dialogue: a video attachment with
its opaque file id, a (non-command) text message, or the `/cancel`
command. -/
inductive Event
  | video (file_id : String)
  | text (s : String)
  | cancel
deriving DecidableEq

/-- Which `reply_text` call of the dialogue handlers fired. `noHandler`
marks updates the conversation does not handle at all (text while `Idle`
goes to `message_handler`; a video attachment mid-conversation matches no
state handler and is dropped). -/
inductive DialogueReply
  | permissionError
  | askNumber
  | askNumberAgain
  | askTitle
  | askDescr
  | saved (id : Nat)
  | cancelled
  | noHandler
deriving DecidableEq

/-- Result of one dialogue step: next state, `kino` table, reply. -/
structure StepResult where
  state : DialogueState
  kino : List (Nat × KinoRow)
  reply : DialogueReply
deriving DecidableEq

/-- One step of the upload conversation, following the
`ConversationHandler` wiring of `bot.py`: entry point `video_handler`
(from `Idle`, on a video attachment), state handlers `get_number`,
`get_title`, `get_description` (on text), and the `/cancel` fallback
(`cancel`, which clears `user_data` and ends the conversation). -/
def dialogue_step (senderIsAdmin : Bool) (st : DialogueState)
    (kino : List (Nat × KinoRow)) (ev : Event) : StepResult :=
  match ev with
  | .cancel =>
    match st with
    | .idle => ⟨.idle, kino, .noHandler⟩
    | _ => ⟨.idle, kino, .cancelled⟩
  | .video fid =>
    match st with
    | .idle =>
      if !senderIsAdmin then ⟨.idle, kino, .permissionError⟩
      else ⟨.awaitingNumber fid, kino, .askNumber⟩
    | s => ⟨s, kino, .noHandler⟩
  | .text s =>
    match st with
    | .idle => ⟨.idle, kino, .noHandler⟩
    | .awaitingNumber fid =>
      let t := pyStrip s
      if !(pyIsDigit t) then ⟨.awaitingNumber fid, kino, .askNumberAgain⟩
      else ⟨.awaitingTitle fid (strToNat t), kino, .askTitle⟩
    | .awaitingTitle fid n =>
      ⟨.awaitingDescription fid n (pyStrip s), kino, .askDescr⟩
    | .awaitingDescription fid n title =>
      let d := pyStrip s
      ⟨.idle, upsertKino kino n ⟨fid, title, d⟩, .saved n⟩

/-- Outcome of `message_handler` on one free-text message: which branch
fired and with what payload. `replySent`/`replyFailed` are the admin
broadcast-reply delivery attempt (`replyFailed` carries the reported
exception text); `videoSent` carries the caption
`"🎬 <b>{title}</b>\n\n{description}"`; `forwarded` carries one entry per
admin of the notification fan-out, paired with that delivery's error, if
any. -/
inductive RouteAction
  | replySent (target : Nat) (body : String)
  | replyFailed (target : Nat) (body : String) (err : String)
  | replyFormatError
  | videoSent (id : Nat) (file_id : String) (caption : String)
  | videoNotFound (id : Nat)
  | forwarded (attempts : List (Nat × Option String))
deriving DecidableEq

/-- Result of `message_handler`: the branch outcome, the `messages`
table after the call, and whether the final "forwarded to admins"
acknowledgement was sent to the sender. -/
structure RouteResult where
  action : RouteAction
  messages : List (Nat × String)
  ackSent : Bool
deriving DecidableEq

/-- `message_handler` of `bot.py`, for a user who is not mid-dialogue.
`sendErr a = some e` means `bot.send_message(chat_id := a, ...)` raises
an exception rendered as `e`; `none` means delivery succeeds. The three
branches in code order: admin broadcast-reply (guard
`is_admin(user.id) and text.startswith("reply ")`, then
`len(parts) >= 3 and parts[1].isdigit()` on `text.split(None, 2)`),
numeric video lookup (`text.isdigit()`), and forward-to-admins (save the
message, best-effort fan-out with a per-admin `try/except`, then always
acknowledge the sender). -/
def message_handler (statics : List Nat) (table : List (Nat × Nat))
    (sendErr : Nat → Option String) (senderId : Nat) (rawText : String)
    (kino : List (Nat × KinoRow)) (msgs : List (Nat × String)) :
    RouteResult :=
  let text := pyStrip rawText
  let db := table.map Prod.fst
  if is_admin statics db senderId && strStartsWith text "reply " then
    match splitNone2 text with
    | [_p0, p1, p2] =>
      if pyIsDigit p1 then
        let target := strToNat p1
        match sendErr target with
        | none => ⟨.replySent target p2, msgs, false⟩
        | some e => ⟨.replyFailed target p2 e, msgs, false⟩
      else ⟨.replyFormatError, msgs, false⟩
    | _ => ⟨.replyFormatError, msgs, false⟩
  else if pyIsDigit text then
    let kid := strToNat text
    match lookupKino kino kid with
    | some row =>
      ⟨.videoSent kid row.file_id
        ("🎬 <b>" ++ row.title ++ "</b>\n\n" ++ row.descr), msgs, false⟩
    | none => ⟨.videoNotFound kid, msgs, false⟩
  else
    let msgs2 := msgs ++ [(senderId, text)]
    let admins := get_admin_ids statics db
    ⟨.forwarded (admins.map fun a => (a, sendErr a)), msgs2, true⟩

/-- Outcomes that belong to the admin broadcast-reply rule (the first
branch of `message_handler`). -/
def isReplyRuleAction : RouteAction → Bool
  | .replySent _ _ => true
  | .replyFailed _ _ _ => true
  | .replyFormatError => true
  | _ => false

/-! ### Helper lemmas -/

theorem list_contains_iff (l : List Nat) (u : Nat) :
    l.contains u = true ↔ u ∈ l := by
  unfold List.contains
  exact List.elem_iff

theorem mem_get_admin_ids (statics db : List Nat) (u : Nat) :
    u ∈ get_admin_ids statics db ↔ u ∈ statics ∨ u ∈ db := by
  unfold get_admin_ids
  by_cases h : ((statics ++ db).dedup).isEmpty = true
  · rw [List.isEmpty_iff, List.dedup_eq_nil, List.append_eq_nil] at h
    simp [h.1, h.2]
  · simp only [h, if_false, Bool.false_eq_true, List.mem_dedup,
      List.mem_append]

theorem mem_map_fst_iff (table : List (Nat × Nat)) (n : Nat) :
    n ∈ table.map Prod.fst ↔ ∃ x, (n, x) ∈ table := by
  rw [List.mem_map]
  constructor
  · rintro ⟨⟨p, q⟩, hrow, rfl⟩
    exact ⟨q, hrow⟩
  · rintro ⟨x, hx⟩
    exact ⟨(n, x), hx, rfl⟩

theorem is_admin_iff (statics db : List Nat) (u : Nat) :
    is_admin statics db u = true ↔ u ∈ statics ∨ u ∈ db := by
  unfold is_admin
  rw [list_contains_iff]
  exact mem_get_admin_ids statics db u

/-! ### C7: effective admin set -/

/-- C7: `is_admin(userId)` is true iff userId is in the effective admin
set, the effective set is the union of the static configured ids and the
dynamic `admins`-table ids, and when both sources are empty the effective
set is empty (no fallback admin). -/
theorem isAdmin_effective_set (statics db : List Nat) (u : Nat) :
    (is_admin statics db u = true ↔ u ∈ statics ∨ u ∈ db)
    ∧ (statics = [] → db = [] → get_admin_ids statics db = []) := by
  refine ⟨is_admin_iff statics db u, ?_⟩
  rintro rfl rfl
  rfl

/-- Witness for C7 at the concrete empty configuration. -/
theorem isAdmin_effective_set_witness : get_admin_ids [] [] = [] :=
  (isAdmin_effective_set [] [] 0).2 rfl rfl

/-! ### C3: addAdmin -/

/-- C3 counterexample: user 5 is statically configured (so already in
the effective admin set), yet `add_admin_command` does NOT fail with
AlreadyAdmin — the `INSERT` succeeds and a dynamic row `(5, 5)` is
created, because the `sqlite3.IntegrityError` duplicate check sees only
the dynamic table. -/
theorem addAdmin_static_counterexample :
    is_admin [5] [] 5 = true
    ∧ add_admin_command [5] [] 5 ["5"] = (.added 5, [(5, 5)]) := by
  decide

/-- C3 (amended): `add_admin_command` fails with AlreadyAdmin exactly
when the new id is already a row of the DYNAMIC admin table (a
statically configured id not in the table is inserted again without
error); otherwise it inserts a dynamic row recording the requester as
grantor; re-adding the id just added fails with AlreadyAdmin and leaves
the table — hence the effective admin set — unchanged. -/
theorem addAdmin_dynamic_duplicate (statics : List Nat)
    (table : List (Nat × Nat)) (req : Nat) (a : String) (rest : List String)
    (hreq : is_admin statics (table.map Prod.fst) req = true)
    (hd : pyIsDigit a = true) :
    (strToNat a ∈ table.map Prod.fst →
      add_admin_command statics table req (a :: rest) = (.alreadyAdmin, table))
    ∧ (strToNat a ∉ table.map Prod.fst →
      add_admin_command statics table req (a :: rest)
        = (.added (strToNat a), table ++ [(strToNat a, req)]))
    ∧ add_admin_command statics (table ++ [(strToNat a, req)]) req (a :: rest)
        = (.alreadyAdmin, table ++ [(strToNat a, req)]) := by
  have hreq' :
      is_admin statics ((table ++ [(strToNat a, req)]).map Prod.fst) req
        = true := by
    rw [is_admin_iff]
    rcases (is_admin_iff _ _ _).mp hreq with h | h
    · exact Or.inl h
    · exact Or.inr (by simp [h])
  refine ⟨?_, ?_, ?_⟩
  · intro hin
    simp [add_admin_command, hreq, hd, (list_contains_iff _ _).mpr hin]
    exact (mem_map_fst_iff table (strToNat a)).mp hin
  · intro hout
    have hc : (table.map Prod.fst).contains (strToNat a) = false := by
      rw [← Bool.not_eq_true, list_contains_iff]
      exact hout
    simp [add_admin_command, hreq, hd, hc]
    intro x hx
    exact hout ((mem_map_fst_iff table (strToNat a)).mpr ⟨x, hx⟩)
  · have hin : strToNat a ∈ (table ++ [(strToNat a, req)]).map Prod.fst := by
      simp
    simp [add_admin_command, hreq', hd, (list_contains_iff _ _).mpr hin]
    simpa using hreq'

/-- Witness for C3 (amended): fresh id 7 is inserted with grantor 5;
the immediate re-addition fails and the table is unchanged. -/
theorem addAdmin_dynamic_duplicate_witness :
    add_admin_command [5] [] 5 ["7"] = (.added 7, [(7, 5)])
    ∧ add_admin_command [5] [(7, 5)] 5 ["7"] = (.alreadyAdmin, [(7, 5)]) := by
  have h := addAdmin_dynamic_duplicate [5] [] 5 "7" [] (by decide) (by decide)
  exact ⟨h.2.1 (by decide), h.2.2⟩

/-! ### C6: removeAdmin -/

/-- C6 counterexample: id 5 is both statically configured and
dynamically added (row `(5, 1)`). `remove_admin_command` succeeds
(deletes the dynamic row), yet 5 is still in the effective admin set —
so a successful removal of a dynamically-added id does not always remove
that id from the effective set. -/
theorem removeAdmin_static_dynamic_counterexample :
    remove_admin_command [5] [(5, 1)] 5 ["5"] = (.removed 5, [])
    ∧ is_admin [5] [] 5 = true := by
  decide

/-- C6 (amended): `remove_admin_command` fails with NotAdmin iff no
dynamic row with that id exists; it only ever deletes from the dynamic
table (the resulting table is the input with the id's rows filtered
out, so removing an id that was only statically configured fails and
changes nothing), and afterwards a user is an effective admin iff they
are statically configured or are a remaining dynamic id other than the
removed one — so removal removes the id from the effective set exactly
when the id is not also statically configured, and no other member is
affected. -/
theorem removeAdmin_dynamic_only (statics : List Nat)
    (table : List (Nat × Nat)) (req : Nat) (a : String) (rest : List String)
    (hreq : is_admin statics (table.map Prod.fst) req = true)
    (hd : pyIsDigit a = true) :
    ((remove_admin_command statics table req (a :: rest)).1 = .notAdmin
      ↔ strToNat a ∉ table.map Prod.fst)
    ∧ (remove_admin_command statics table req (a :: rest)).2
        = table.filter (fun row => row.1 != strToNat a)
    ∧ (strToNat a ∉ table.map Prod.fst →
        (remove_admin_command statics table req (a :: rest)).2 = table)
    ∧ (∀ m, is_admin statics
          ((remove_admin_command statics table req (a :: rest)).2.map
            Prod.fst) m = true
        ↔ m ∈ statics ∨ (m ∈ table.map Prod.fst ∧ m ≠ strToNat a)) := by
  have hlen :
      ((table.filter (fun row => row.1 != strToNat a)).length < table.length
        ↔ strToNat a ∈ table.map Prod.fst) := by
    rw [List.length_filter_lt_length_iff_exists]
    constructor
    · rintro ⟨row, hrow, hp⟩
      simp only [bne_iff_ne, ne_eq, not_not] at hp
      exact List.mem_map.mpr ⟨row, hrow, hp⟩
    · intro hmem
      rcases List.mem_map.mp hmem with ⟨row, hrow, hfst⟩
      exact ⟨row, hrow, by simp [hfst]⟩
  have hfilter_eq : strToNat a ∉ table.map Prod.fst →
      table.filter (fun row => row.1 != strToNat a) = table := by
    intro hout
    rw [List.filter_eq_self]
    intro row hrow
    simp only [bne_iff_ne, ne_eq]
    intro hc
    exact hout (List.mem_map.mpr ⟨row, hrow, hc⟩)
  refine ⟨?_, ?_, ?_, ?_⟩
  · by_cases hin : strToNat a ∈ table.map Prod.fst
    · simp [remove_admin_command, hreq, hd, hlen.mpr hin, hin]
    · have : ¬ ((table.filter (fun row => row.1 != strToNat a)).length
          < table.length) := fun hc => hin (hlen.mp hc)
      simp [remove_admin_command, hreq, hd, this, hin]
  · by_cases hin : strToNat a ∈ table.map Prod.fst
    · simp [remove_admin_command, hreq, hd, hlen.mpr hin]
    · have : ¬ ((table.filter (fun row => row.1 != strToNat a)).length
          < table.length) := fun hc => hin (hlen.mp hc)
      simp [remove_admin_command, hreq, hd, this]
  · intro hout
    by_cases hin : strToNat a ∈ table.map Prod.fst
    · exact absurd hin hout
    · have : ¬ ((table.filter (fun row => row.1 != strToNat a)).length
          < table.length) := fun hc => hin (hlen.mp hc)
      simp [remove_admin_command, hreq, hd, this, hfilter_eq hout]
  · intro m
    have h2 : (remove_admin_command statics table req (a :: rest)).2
        = table.filter (fun row => row.1 != strToNat a) := by
      by_cases hin : strToNat a ∈ table.map Prod.fst
      · simp [remove_admin_command, hreq, hd, hlen.mpr hin]
      · have : ¬ ((table.filter (fun row => row.1 != strToNat a)).length
            < table.length) := fun hc => hin (hlen.mp hc)
        simp [remove_admin_command, hreq, hd, this]
    rw [h2, is_admin_iff]
    constructor
    · rintro (h | h)
      · exact Or.inl h
      · rcases List.mem_map.mp h with ⟨row, hrow, hfst⟩
        rcases List.mem_filter.mp hrow with ⟨hrow', hp⟩
        simp only [bne_iff_ne, ne_eq] at hp
        exact Or.inr ⟨List.mem_map.mpr ⟨row, hrow', hfst⟩, hfst ▸ hp⟩
    · rintro (h | ⟨h, hne⟩)
      · exact Or.inl h
      · rcases List.mem_map.mp h with ⟨row, hrow, hfst⟩
        refine Or.inr (List.mem_map.mpr ⟨row, List.mem_filter.mpr
          ⟨hrow, ?_⟩, hfst⟩)
        simp only [bne_iff_ne, ne_eq]
        exact fun hc => hne (hfst ▸ hc)

/-- Witness for C6 (amended): the dynamic-only admin 7 removes itself;
the removal does not report NotAdmin and afterwards 7 is no longer an
effective admin. -/
theorem removeAdmin_dynamic_only_witness :
    (remove_admin_command [] [(7, 5)] 7 ["7"]).1 ≠ AdminCmdReply.notAdmin := by
  have h := removeAdmin_dynamic_only [] [(7, 5)] 7 "7" [] (by decide)
    (by decide)
  intro hc
  exact (h.1.mp hc) (by decide)

theorem find?_filter_ne (t : List (Nat × KinoRow)) (n : Nat) :
    (t.filter (fun r => r.1 != n)).find? (fun r => r.1 == n) = none := by
  rw [List.find?_eq_none]
  intro x hx
  have hne := (List.mem_filter.mp hx).2
  simp only [bne_iff_ne, ne_eq] at hne
  simp [hne]

theorem lookupKino_upsert_self (t : List (Nat × KinoRow)) (n : Nat)
    (r : KinoRow) : lookupKino (upsertKino t n r) n = some r := by
  unfold lookupKino upsertKino
  rw [List.find?_append, find?_filter_ne]
  simp

theorem countId_upsert_self (t : List (Nat × KinoRow)) (n : Nat)
    (r : KinoRow) : countId (upsertKino t n r) n = 1 := by
  unfold countId upsertKino
  rw [List.filter_append]
  have h1 : (t.filter (fun r => r.1 != n)).filter (fun r => r.1 == n)
      = [] := by
    rw [List.filter_eq_nil_iff]
    intro x hx
    have hne := (List.mem_filter.mp hx).2
    simp only [bne_iff_ne, ne_eq] at hne
    simp [hne]
  simp [h1]

/-! ### C2: store / lookup / replace -/

/-- C2: after the Upload Dialogue completes storing a video with id `n`,
looking `n` up returns exactly the stored (file_id, title, description)
triple; completing a second upload with the same id replaces the record
(the table keeps exactly one row for `n`) and still ends with the
success confirmation, not an error. -/
theorem video_store_replace (b b' : Bool) (f f' ti ti' : String) (n : Nat)
    (kino : List (Nat × KinoRow)) (s s' : String) :
    lookupKino (dialogue_step b (.awaitingDescription f n ti) kino
        (.text s)).kino n = some ⟨f, ti, pyStrip s⟩
    ∧ countId (dialogue_step b (.awaitingDescription f n ti) kino
        (.text s)).kino n = 1
    ∧ (dialogue_step b (.awaitingDescription f n ti) kino
        (.text s)).reply = .saved n
    ∧ lookupKino (dialogue_step b' (.awaitingDescription f' n ti')
        (dialogue_step b (.awaitingDescription f n ti) kino
          (.text s)).kino (.text s')).kino n = some ⟨f', ti', pyStrip s'⟩
    ∧ countId (dialogue_step b' (.awaitingDescription f' n ti')
        (dialogue_step b (.awaitingDescription f n ti) kino
          (.text s)).kino (.text s')).kino n = 1
    ∧ (dialogue_step b' (.awaitingDescription f' n ti')
        (dialogue_step b (.awaitingDescription f n ti) kino
          (.text s)).kino (.text s')).reply = .saved n :=
  ⟨lookupKino_upsert_self kino n ⟨f, ti, pyStrip s⟩,
   countId_upsert_self kino n ⟨f, ti, pyStrip s⟩, rfl,
   lookupKino_upsert_self _ n ⟨f', ti', pyStrip s'⟩,
   countId_upsert_self _ n ⟨f', ti', pyStrip s'⟩, rfl⟩

/-! ### C1: terminal behavior of the Upload Dialogue -/

/-- C1: the only dialogue transition that writes the `kino` table is
`AwaitingDescription` receiving text; `/cancel` from any non-Idle state
discards the draft and resets to Idle without persisting; a non-admin's
video attachment is rejected with the permission error, stays in Idle
(never enters `AwaitingNumber`) and creates no draft. -/
theorem upload_dialogue_terminal (b : Bool) (st : DialogueState)
    (kino : List (Nat × KinoRow)) (ev : Event) (fid : String) :
    ((dialogue_step b st kino ev).kino = kino ∨
      ∃ f n ti s, st = .awaitingDescription f n ti ∧ ev = .text s)
    ∧ (st ≠ .idle →
        dialogue_step b st kino .cancel = ⟨.idle, kino, .cancelled⟩)
    ∧ dialogue_step false .idle kino (.video fid)
        = ⟨.idle, kino, .permissionError⟩ := by
  refine ⟨?_, ?_, rfl⟩
  · cases ev with
    | cancel => cases st <;> exact Or.inl rfl
    | video fid2 =>
      cases st with
      | idle => cases b <;> exact Or.inl rfl
      | awaitingNumber f => exact Or.inl rfl
      | awaitingTitle f n => exact Or.inl rfl
      | awaitingDescription f n ti => exact Or.inl rfl
    | text s =>
      cases st with
      | idle => exact Or.inl rfl
      | awaitingNumber f =>
        refine Or.inl ?_
        by_cases h : pyIsDigit (pyStrip s) = true <;>
          simp [dialogue_step, h]
      | awaitingTitle f n => exact Or.inl rfl
      | awaitingDescription f n ti => exact Or.inr ⟨f, n, ti, s, rfl, rfl⟩
  · intro h
    cases st with
    | idle => exact absurd rfl h
    | awaitingNumber f => rfl
    | awaitingTitle f n => rfl
    | awaitingDescription f n ti => rfl

/-- Witness for C1: `/cancel` from the concrete state
`AwaitingNumber "f"` resets to Idle with the catalog untouched. -/
theorem upload_dialogue_terminal_witness :
    dialogue_step true (.awaitingNumber "f") [] .cancel
      = ⟨.idle, [], .cancelled⟩ :=
  (upload_dialogue_terminal true (.awaitingNumber "f") [] .cancel "g").2.1
    (by decide)

/-! ### C5: the AwaitingTitle step -/

/-- C5 counterexample: in `AwaitingTitle`, the text " Matrix " is
recorded as title "Matrix" — stripped, not verbatim — and whitespace-only
text " " is empty after trimming yet still advances to
`AwaitingDescription`, recording the empty title. -/
theorem awaitingTitle_counterexample :
    dialogue_step true (.awaitingTitle "f" 1) [] (.text " Matrix ")
      = ⟨.awaitingDescription "f" 1 "Matrix", [], .askDescr⟩
    ∧ " Matrix " ≠ "Matrix"
    ∧ dialogue_step true (.awaitingTitle "f" 1) [] (.text " ")
      = ⟨.awaitingDescription "f" 1 "", [], .askDescr⟩ := by
  decide

/-- C5 (amended): in `AwaitingTitle`, ANY received text advances the
dialogue to `AwaitingDescription` (`get_title` performs no validation,
not even non-emptiness), and the text stripped of surrounding whitespace
— not the verbatim text — is recorded as the draft title. -/
theorem awaitingTitle_any_text (b : Bool) (f : String) (n : Nat)
    (kino : List (Nat × KinoRow)) (s : String) :
    dialogue_step b (.awaitingTitle f n) kino (.text s)
      = ⟨.awaitingDescription f n (pyStrip s), kino, .askDescr⟩ := rfl

/-! ### C4: numeric video lookup -/

/-- C4 counterexample: "-5" is the decimal notation of the integer -5
(so the trimmed text is an integer) and no video row with that id
exists, yet the router does not reply not-found: because `isdigit`
rejects the sign, the message falls through to the forward-to-admins
branch and a Message row is appended. -/
theorem numeric_lookup_counterexample :
    (-5 : Int).repr = "-5"
    ∧ message_handler [] [] (fun _ => Option.none) 7 "-5" [] []
      = ⟨.forwarded [], [(7, "-5")], true⟩ := by
  constructor
  · decide
  · decide

/-- C4 (amended): for a free-text message not captured by the
admin-reply rule whose trimmed text consists solely of decimal digits (a
non-negative integer — a signed integer such as "-5" is forwarded to the
admins instead, see the counterexample), the router looks the id up in
the `kino` table: if a row exists it sends the video with the caption
built from title and description, otherwise it replies not-found naming
the id. The handler is total (never crashes) and leaves the messages
table untouched. -/
theorem numeric_lookup_route (statics : List Nat) (table : List (Nat × Nat))
    (sendErr : Nat → Option String) (sender : Nat) (raw : String)
    (kino : List (Nat × KinoRow)) (msgs : List (Nat × String))
    (h1 : (is_admin statics (table.map Prod.fst) sender
        && strStartsWith (pyStrip raw) "reply ") = false)
    (h2 : pyIsDigit (pyStrip raw) = true) :
    message_handler statics table sendErr sender raw kino msgs
      = ⟨match lookupKino kino (strToNat (pyStrip raw)) with
         | some row => .videoSent (strToNat (pyStrip raw)) row.file_id
             ("🎬 <b>" ++ row.title ++ "</b>\n\n" ++ row.descr)
         | none => .videoNotFound (strToNat (pyStrip raw)),
         msgs, false⟩ := by
  simp [message_handler, h1, h2]
  rcases lookupKino kino (strToNat (pyStrip raw)) with _ | row <;> rfl

/-- Witness for C4 (amended): id 3 is present and delivered with its
caption; id 4 is absent and reported not-found. -/
theorem numeric_lookup_route_witness :
    message_handler [] [] (fun _ => Option.none) 7 " 3 "
        [(3, ⟨"f", "T", "D"⟩)] []
      = ⟨.videoSent 3 "f" "🎬 <b>T</b>\n\nD", [], false⟩
    ∧ message_handler [] [] (fun _ => Option.none) 7 "4"
        [(3, ⟨"f", "T", "D"⟩)] []
      = ⟨.videoNotFound 4, [], false⟩ := by
  have ha := numeric_lookup_route [] [] (fun _ => Option.none) 7 " 3 "
      [(3, ⟨"f", "T", "D"⟩)] [] (by decide) (by decide)
  have hb := numeric_lookup_route [] [] (fun _ => Option.none) 7 "4"
      [(3, ⟨"f", "T", "D"⟩)] [] (by decide) (by decide)
  exact ⟨ha.trans (by decide), hb.trans (by decide)⟩

/-! ### C8: admin broadcast-reply -/

/-- C8 counterexample: in "reply -1 hi" from an admin, the id token "-1"
is the decimal notation of the integer -1 (so it parses as an integer)
and the non-empty body "hi" follows, yet no delivery is attempted:
`isdigit` rejects the sign and the handler reports the format error. -/
theorem admin_reply_counterexample :
    (-1 : Int).repr = "-1"
    ∧ message_handler [5] [] (fun _ => Option.none) 5 "reply -1 hi" [] []
      = ⟨.replyFormatError, [], false⟩ := by
  constructor
  · decide
  · decide

/-- C8 (amended): for an admin sender whose trimmed text starts with
"reply ": if `split(None, 2)` yields three parts and the id token is all
decimal digits (Python `isdigit` — a signed token such as "-1" is a
format error instead, see the counterexample), delivery of the remainder
to that target is attempted and a failure is reported back with the
underlying exception text without raising further; if the id or the body
is missing, or the id token is not all digits, the format error is
reported and no delivery is attempted — the outcome is the same for
every delivery oracle. -/
theorem admin_reply_route (statics : List Nat) (table : List (Nat × Nat))
    (sendErr : Nat → Option String) (sender : Nat) (raw : String)
    (kino : List (Nat × KinoRow)) (msgs : List (Nat × String))
    (p0 p1 p2 : String)
    (hadm : is_admin statics (table.map Prod.fst) sender = true)
    (hsw : strStartsWith (pyStrip raw) "reply " = true) :
    (splitNone2 (pyStrip raw) = [p0, p1, p2] → pyIsDigit p1 = true →
      message_handler statics table sendErr sender raw kino msgs
        = ⟨match sendErr (strToNat p1) with
           | none => .replySent (strToNat p1) p2
           | some e => .replyFailed (strToNat p1) p2 e, msgs, false⟩)
    ∧ (splitNone2 (pyStrip raw) = [p0, p1, p2] → pyIsDigit p1 = false →
      ∀ sendErr2 : Nat → Option String,
        message_handler statics table sendErr2 sender raw kino msgs
          = ⟨.replyFormatError, msgs, false⟩)
    ∧ ((splitNone2 (pyStrip raw)).length < 3 →
      ∀ sendErr2 : Nat → Option String,
        message_handler statics table sendErr2 sender raw kino msgs
          = ⟨.replyFormatError, msgs, false⟩) := by
  refine ⟨?_, ?_, ?_⟩
  · intro hsp hdig
    simp [message_handler, hadm, hsw, hsp, hdig]
    rcases sendErr (strToNat p1) with _ | e <;> rfl
  · intro hsp hdig sendErr2
    simp [message_handler, hadm, hsw, hsp, hdig]
  · intro hlen sendErr2
    rcases hsp : splitNone2 (pyStrip raw) with _ | ⟨x, _ | ⟨y, _ | ⟨z, rest⟩⟩⟩
    · simp [message_handler, hadm, hsw, hsp]
    · simp [message_handler, hadm, hsw, hsp]
    · simp [message_handler, hadm, hsw, hsp]
    · rw [hsp] at hlen
      simp only [List.length_cons] at hlen
      omega

/-- Witness for C8 (amended): "reply 42 hello" with a blocked target is
a delivery attempt whose failure is reported with the cause; the
malformed "reply abc" is a format error with no delivery attempt. -/
theorem admin_reply_route_witness :
    message_handler [5] [] (fun _ => some "blocked") 5 "reply 42 hello"
        [] [] = ⟨.replyFailed 42 "hello" "blocked", [], false⟩
    ∧ message_handler [5] [] (fun _ => Option.none) 5 "reply abc" [] []
      = ⟨.replyFormatError, [], false⟩ := by
  have h1 := (admin_reply_route [5] [] (fun _ => some "blocked") 5
      "reply 42 hello" [] [] "reply" "42" "hello" (by decide)
      (by decide)).1 (by decide) (by decide)
  have h2 := (admin_reply_route [5] [] (fun _ => Option.none) 5
      "reply abc" [] [] "reply" "abc" "x" (by decide) (by decide)).2.2
      (by decide) (fun _ => Option.none)
  exact ⟨h1.trans (by decide), h2⟩

/-! ### C9: forward-to-admins fan-out -/

/-- C9: a free-text message matching neither the admin-reply rule nor
the numeric rule appends exactly one Message row, attempts exactly one
notification per member of the effective admin set — stated for an
arbitrary delivery oracle, so one admin's failure never removes the
attempts to the others — and always sends the sender the forwarded
acknowledgement. -/
theorem forward_to_admins (statics : List Nat) (table : List (Nat × Nat))
    (sendErr : Nat → Option String) (sender : Nat) (raw : String)
    (kino : List (Nat × KinoRow)) (msgs : List (Nat × String))
    (h1 : (is_admin statics (table.map Prod.fst) sender
        && strStartsWith (pyStrip raw) "reply ") = false)
    (h2 : pyIsDigit (pyStrip raw) = false) :
    message_handler statics table sendErr sender raw kino msgs
      = ⟨.forwarded ((get_admin_ids statics (table.map Prod.fst)).map
          fun a => (a, sendErr a)), msgs ++ [(sender, pyStrip raw)], true⟩
    ∧ (((get_admin_ids statics (table.map Prod.fst)).map
          fun a => (a, sendErr a)).map Prod.fst
        = get_admin_ids statics (table.map Prod.fst)) := by
  constructor
  · simp [message_handler, h1, h2]
  · rw [List.map_map]
    have hid : (Prod.fst ∘ fun a => (a, sendErr a)) = id := rfl
    rw [hid, List.map_id]

/-- Witness for C9: two configured admins, delivery to admin 1 fails;
both attempts are still made and the sender is acknowledged. -/
theorem forward_to_admins_witness :
    message_handler [1, 2] []
        (fun a => if a == 1 then some "boom" else Option.none) 7 "hello"
        [] []
      = ⟨.forwarded [(1, some "boom"), (2, Option.none)], [(7, "hello")],
         true⟩ := by
  have h := (forward_to_admins [1, 2] []
      (fun a => if a == 1 then some "boom" else Option.none) 7 "hello"
      [] [] (by decide) (by decide)).1
  exact h.trans (by decide)

/-! ### C10: the admin-reply rule is a frame for the tables -/

/-- C10: for an admin sender whose trimmed text starts with "reply " —
malformed forms included — the handler resolves entirely inside the
admin-reply rule: the messages table is unchanged, no forwarded
acknowledgement is sent, the outcome is one of the three reply-rule
outcomes (never a video delivery, a not-found reply, or an
admin-notification fan-out), and the result does not depend on the
`kino` table at all (no video lookup; `message_handler` writes neither
table). -/
theorem reply_branch_frame (statics : List Nat) (table : List (Nat × Nat))
    (sendErr : Nat → Option String) (sender : Nat) (raw : String)
    (kino kino2 : List (Nat × KinoRow)) (msgs : List (Nat × String))
    (hadm : is_admin statics (table.map Prod.fst) sender = true)
    (hsw : strStartsWith (pyStrip raw) "reply " = true) :
    (message_handler statics table sendErr sender raw kino msgs).messages
        = msgs
    ∧ (message_handler statics table sendErr sender raw kino msgs).ackSent
        = false
    ∧ isReplyRuleAction (message_handler statics table sendErr sender raw
        kino msgs).action = true
    ∧ message_handler statics table sendErr sender raw kino2 msgs
        = message_handler statics table sendErr sender raw kino msgs := by
  have key : ∀ k : List (Nat × KinoRow),
      message_handler statics table sendErr sender raw k msgs
        = match splitNone2 (pyStrip raw) with
          | [_p0, p1, p2] =>
            if pyIsDigit p1 then
              match sendErr (strToNat p1) with
              | none => ⟨.replySent (strToNat p1) p2, msgs, false⟩
              | some e => ⟨.replyFailed (strToNat p1) p2 e, msgs, false⟩
            else ⟨.replyFormatError, msgs, false⟩
          | _ => ⟨.replyFormatError, msgs, false⟩ := by
    intro k
    simp [message_handler, hadm, hsw]
  have hprops :
      (match splitNone2 (pyStrip raw) with
       | [_p0, p1, p2] =>
         if pyIsDigit p1 then
           match sendErr (strToNat p1) with
           | none => (⟨.replySent (strToNat p1) p2, msgs, false⟩ :
               RouteResult)
           | some e => ⟨.replyFailed (strToNat p1) p2 e, msgs, false⟩
         else ⟨.replyFormatError, msgs, false⟩
       | _ => ⟨.replyFormatError, msgs, false⟩ : RouteResult).messages
          = msgs
      ∧ (match splitNone2 (pyStrip raw) with
         | [_p0, p1, p2] =>
           if pyIsDigit p1 then
             match sendErr (strToNat p1) with
             | none => (⟨.replySent (strToNat p1) p2, msgs, false⟩ :
                 RouteResult)
             | some e => ⟨.replyFailed (strToNat p1) p2 e, msgs, false⟩
           else ⟨.replyFormatError, msgs, false⟩
         | _ => ⟨.replyFormatError, msgs, false⟩ : RouteResult).ackSent
            = false
      ∧ isReplyRuleAction
          (match splitNone2 (pyStrip raw) with
           | [_p0, p1, p2] =>
             if pyIsDigit p1 then
               match sendErr (strToNat p1) with
               | none => (⟨.replySent (strToNat p1) p2, msgs, false⟩ :
                   RouteResult)
               | some e => ⟨.replyFailed (strToNat p1) p2 e, msgs, false⟩
             else ⟨.replyFormatError, msgs, false⟩
           | _ => ⟨.replyFormatError, msgs, false⟩ : RouteResult).action
            = true := by
    rcases splitNone2 (pyStrip raw) with _ | ⟨x, _ | ⟨y, _ | ⟨z, rest⟩⟩⟩
    · exact ⟨rfl, rfl, rfl⟩
    · exact ⟨rfl, rfl, rfl⟩
    · exact ⟨rfl, rfl, rfl⟩
    · rcases rest with _ | ⟨w, rest2⟩
      · by_cases hdig : pyIsDigit y = true
        · rcases hse : sendErr (strToNat y) with _ | e <;>
            simp [hdig, hse, isReplyRuleAction]
        · simp only [Bool.not_eq_true] at hdig
          simp [hdig, isReplyRuleAction]
      · exact ⟨rfl, rfl, rfl⟩
  rw [key kino]
  exact ⟨hprops.1, hprops.2.1, hprops.2.2, (key kino2).trans rfl⟩

/-- Witness for C10: the malformed "reply abc" from admin 5 leaves the
messages table empty and lands in a reply-rule outcome. -/
theorem reply_branch_frame_witness :
    (message_handler [5] [] (fun _ => Option.none) 5 "reply abc"
        [(3, ⟨"f", "T", "D"⟩)] []).messages = []
    ∧ isReplyRuleAction (message_handler [5] [] (fun _ => Option.none) 5
        "reply abc" [(3, ⟨"f", "T", "D"⟩)] []).action = true := by
  have h := reply_branch_frame [5] [] (fun _ => Option.none) 5 "reply abc"
      [(3, ⟨"f", "T", "D"⟩)] [] [] (by decide) (by decide)
  exact ⟨h.1, h.2.2.1⟩

end KinoBot
